import Mathlib

/-!
Verification of the Soko electronics-store POS backend.

This file shallowly embeds the parts of the repository that the claims are
about: the data model and trigger functions of
`store Electronics/01_DATABASE_SCHEMA.sql` and the Express route handlers of
`store Electronics/02_BACKEND_SERVER.js` (registration, sale creation, sale
cancellation, daily report generation).

Modelling conventions:
- JavaScript number arithmetic on money is modelled over `ℚ` (the amounts
  involved are decimal literals and the properties settled here are robust to
  double-precision error, which is many orders of magnitude smaller than the
  cent-level distinctions at stake).
- `DECIMAL(10,2)` / `DECIMAL(12,2)` columns round the inserted value to two
  fractional digits at storage; PostgreSQL `numeric` rounds ties away from
  zero.  This storage cast is `pgRound2`.
- `Math.floor(Math.random() * 10000)` draws are passed in as explicit `Nat`
  arguments, and fresh row ids (`gen_random_uuid()`) as explicit `Nat`
  arguments.
- Database errors other than the ones the handlers branch on are not modelled;
  each handler is a pure function from the request, the current table contents
  and the nondeterministic inputs to the new table contents and the response.
-/

namespace Soko

/-! ## Data model (01_DATABASE_SCHEMA.sql) -/

/-- A row of `products` (01_DATABASE_SCHEMA.sql:34-53), restricted to the
columns the verified handlers read or write. -/
structure Product where
  id : Nat
  name : String
  price : ℚ
  quantity_in_stock : Int
  is_active : Bool
  deriving Repr, DecidableEq

/-- A row of `customers` (01_DATABASE_SCHEMA.sql:81-97), restricted to the
loyalty columns. -/
structure Customer where
  id : Nat
  total_purchases : ℚ
  purchase_count : Nat
  is_eligible_for_discount : Bool
  discount_percentage : Nat
  deriving Repr, DecidableEq

/-- A `TIMESTAMP` value: a calendar day index plus milliseconds within the
day. -/
structure Timestamp where
  day : Nat
  ms : Nat
  deriving Repr, DecidableEq

/-- A row of `transactions` (01_DATABASE_SCHEMA.sql:104-118). -/
structure TxnRow where
  id : Nat
  transaction_number : String
  customer_id : Option Nat
  cashier_id : Nat
  subtotal : ℚ
  discount_amount : ℚ
  tax : ℚ
  total_amount : ℚ
  payment_method : String
  status : String
  created_at : Timestamp
  deriving Repr, DecidableEq

/-- A row of `transaction_items` (01_DATABASE_SCHEMA.sql:128-136). -/
structure ItemRow where
  transaction_id : Nat
  product_id : Nat
  quantity : Int
  unit_price : ℚ
  line_total : ℚ
  deriving Repr, DecidableEq

/-- A row of `receipts` (01_DATABASE_SCHEMA.sql:142-151), keeping the fields
the claims mention. -/
structure ReceiptRow where
  transaction_id : Nat
  receipt_number : String
  deriving Repr, DecidableEq

/-- A row of `daily_reports` (01_DATABASE_SCHEMA.sql:159-175).
`top_products` is the JSONB list of `{name, quantity}` pairs produced by the
report handler; `average_transaction` is the corresponding field of the
`report_summary` JSONB. -/
structure ReportRow where
  report_date : Nat
  total_sales : ℚ
  total_transactions : Nat
  total_discount_given : ℚ
  total_tax : ℚ
  cash_sales : ℚ
  card_sales : ℚ
  check_sales : ℚ
  top_products : List (String × Int)
  average_transaction : ℚ
  generated_by : Nat
  deriving Repr, DecidableEq

/-- A row of `users` (01_DATABASE_SCHEMA.sql:13-22). -/
structure UserRow where
  id : Nat
  email : String
  full_name : String
  role : String
  deriving Repr, DecidableEq

/-- The tables the verified handlers touch. -/
structure DB where
  products : List Product
  customers : List Customer
  transactions : List TxnRow
  transaction_items : List ItemRow
  receipts : List ReceiptRow
  daily_reports : List ReportRow
  deriving Repr, DecidableEq

/-- PostgreSQL storage cast to `numeric` with 2 fractional digits
(`DECIMAL(10,2)` / `DECIMAL(12,2)` columns): round to 2 decimals, ties away
from zero. -/
def pgRound2 (q : ℚ) : ℚ :=
  if 0 ≤ q then ((⌊q * 100 + 1 / 2⌋ : ℤ) : ℚ) / 100
  else -(((⌊-(q * 100) + 1 / 2⌋ : ℤ) : ℚ) / 100)

/-! ## Row lookups (`.eq(...).single()` queries) -/

/-- Query `supabase.from('products').select(...).eq('id', pid).single()`. -/
def findProduct (ps : List Product) (pid : Nat) : Option Product :=
  ps.find? (fun p => p.id == pid)

/-- Query `supabase.from('customers').select('*').eq('id', cid).single()`. -/
def findCustomer (cs : List Customer) (cid : Nat) : Option Customer :=
  cs.find? (fun c => c.id == cid)

/-- Query `supabase.from('transactions').select('*').eq('id', id).single()`. -/
def findTxn (ts : List TxnRow) (id : Nat) : Option TxnRow :=
  ts.find? (fun t => t.id == id)

/-! ## Sequence-number rendering (02_BACKEND_SERVER.js:537 and 576) -/

/-- JS `String.prototype.padStart(w, '0')`. -/
def padZero (w : Nat) (s : String) : String :=
  if s.length < w then String.mk (List.replicate (w - s.length) '0') ++ s else s

/-- The `${getFullYear()}${String(getMonth()+1).padStart(2,'0')}${String(getDate()).padStart(2,'0')}`
date stamp; `m` is the 1-based month (`getMonth() + 1`). -/
def dateStamp (y m d : Nat) : String :=
  toString y ++ padZero 2 (toString m) ++ padZero 2 (toString d)

/-- From 02_BACKEND_SERVER.js:537 — the sale number is built from a fresh random
draw `r = Math.floor(Math.random() * 10000)` (so `r < 10000`), zero-padded to
5 digits.  It is not read from any counter. -/
def transactionNumber (y m d r : Nat) : String :=
  "TXN-" ++ dateStamp y m d ++ "-" ++ padZero 5 (toString r)

/-- From 02_BACKEND_SERVER.js:576 — the receipt number, same construction with an
independent random draw. -/
def receiptNumber (y m d r : Nat) : String :=
  "RCP-" ++ dateStamp y m d ++ "-" ++ padZero 5 (toString r)

/-! ## Trigger functions (01_DATABASE_SCHEMA.sql:271-332) -/

/-- Body of `check_customer_eligibility()` (01_DATABASE_SCHEMA.sql:271-280):
sets the flag and percentage when a threshold is reached, and has no `ELSE`
branch.  Note: `customer_eligibility_trigger` attaching it is declared
`AFTER UPDATE ON customers` (01_DATABASE_SCHEMA.sql:283-286); PostgreSQL
ignores the `NEW` row returned by a row-level trigger fired `AFTER`, so in
the running system these assignments never reach the stored row (see
`update_customer_totals`). -/
def check_customer_eligibility (c : Customer) : Customer :=
  if 10 ≤ c.purchase_count ∨ (1000 : ℚ) ≤ c.total_purchases then
    { c with is_eligible_for_discount := true, discount_percentage := 5 }
  else c

/-- Trigger `update_customer_totals()` (01_DATABASE_SCHEMA.sql:314-326), fired
`AFTER INSERT ON transactions` when `customer_id IS NOT NULL AND
status = 'completed'`: adds the stored `total_amount` to the customer's
cumulative spend and increments the purchase count.  The `UPDATE` it issues
fires `customer_eligibility_trigger`, but that trigger is `AFTER UPDATE` and
its `NEW` assignments are discarded by PostgreSQL, so the stored customer row
reflects only the totals update — the eligibility flag and percentage are
left as they were. -/
def update_customer_totals (total_amount : ℚ) (cs : List Customer) (cid : Nat) :
    List Customer :=
  cs.map fun c =>
    if c.id == cid then
      { c with total_purchases := c.total_purchases + total_amount,
               purchase_count := c.purchase_count + 1 }
    else c

/-- Trigger `update_product_quantity()` (01_DATABASE_SCHEMA.sql:289-307), fired
`AFTER INSERT ON transaction_items`: decrements the product's stock by the
inserted quantity, with no lower-bound check. -/
def update_product_quantity (ps : List Product) (row : ItemRow) : List Product :=
  ps.map fun p =>
    if p.id == row.product_id then
      { p with quantity_in_stock := p.quantity_in_stock - row.quantity }
    else p

/-! ## POST /api/transactions (02_BACKEND_SERVER.js:480-618) -/

/-- A line item of the request body: `{product_id, quantity, unit_price}`.
The handler never validates the quantity, so it is any JS number (an `Int`
here). -/
structure SaleItem where
  product_id : Nat
  quantity : Int
  unit_price : ℚ
  deriving Repr, DecidableEq

/-- The error responses of the transaction-creation handler:
`400 'Transaction must have items'` and
`400 'Insufficient stock for product <id>'`. -/
inductive SaleError where
  | invalidInput : SaleError
  | insufficientStock : Nat → SaleError
  deriving Repr, DecidableEq

/-- The stock-verification loop (02_BACKEND_SERVER.js:493-506): for each item
in order, read the product row by id (no `is_active` filter) and fail on the
first item whose product is missing or whose stock is below the requested
quantity.  Returns the offending product id. -/
def firstStockFailure (ps : List Product) : List SaleItem → Option Nat
  | [] => none
  | it :: rest =>
    match findProduct ps it.product_id with
    | none => some it.product_id
    | some p =>
      if p.quantity_in_stock < it.quantity then some it.product_id
      else firstStockFailure ps rest

/-- The subtotal accumulation (02_BACKEND_SERVER.js:513-516):
`subtotal += item.quantity * item.unit_price` over the request items. -/
def subtotalOf (items : List SaleItem) : ℚ :=
  items.foldl (fun s it => s + (it.quantity : ℚ) * it.unit_price) 0

/-- The discount step (02_BACKEND_SERVER.js:519-531): when a customer row was
found and its stored `is_eligible_for_discount` is set,
`discount = subtotal * (discount_percentage / 100)`, else 0. -/
def discountFor (c : Option Customer) (subtotal : ℚ) : ℚ :=
  match c with
  | some cu =>
    if cu.is_eligible_for_discount then subtotal * ((cu.discount_percentage : ℚ) / 100)
    else 0
  | none => 0

/-- Handler `POST /api/transactions` (02_BACKEND_SERVER.js:480-618).  Arguments after
the request body: the cashier (`req.user.id`), the current date `y/m/d` (for
the number rendering), the two random draws `r1` (transaction number) and
`r2` (receipt number), the fresh transaction row id, and the insertion
timestamp.

Control flow, in source order: reject an empty item list; run the
stock-verification loop and reject on its first failure (both rejections
happen before any write); compute `subtotal`, `discount`, `tax = (subtotal -
discount) * 0.1` and `total = subtotal - discount + tax` with no rounding;
insert the transaction row (each `DECIMAL(10,2)` column storing the
`pgRound2` of the sent value), which fires `update_customer_totals`; insert
one `transaction_items` row per item (each firing
`update_product_quantity`); insert the receipt row. -/
def createSale (db : DB) (customer_id : Option Nat) (items : List SaleItem)
    (payment_method : String) (cashier : Nat) (y m d : Nat) (r1 r2 : Nat)
    (txnId : Nat) (now : Timestamp) : DB × Except SaleError (TxnRow × ReceiptRow) :=
  if items.isEmpty then (db, .error .invalidInput)
  else
    match firstStockFailure db.products items with
    | some pid => (db, .error (.insufficientStock pid))
    | none =>
      let subtotal := subtotalOf items
      let customerData :=
        match customer_id with
        | some cid => findCustomer db.customers cid
        | none => none
      let discount := discountFor customerData subtotal
      let tax := (subtotal - discount) * (1 / 10)
      let totalAmount := subtotal - discount + tax
      let txn : TxnRow :=
        { id := txnId
          transaction_number := transactionNumber y m d r1
          customer_id := customer_id
          cashier_id := cashier
          subtotal := pgRound2 subtotal
          discount_amount := pgRound2 discount
          tax := pgRound2 tax
          total_amount := pgRound2 totalAmount
          payment_method := payment_method
          status := "completed"
          created_at := now }
      let customers' :=
        match customer_id with
        | some cid => update_customer_totals txn.total_amount db.customers cid
        | none => db.customers
      let itemRows := items.map fun it =>
        ItemRow.mk txnId it.product_id it.quantity it.unit_price
          (pgRound2 ((it.quantity : ℚ) * it.unit_price))
      let products' := itemRows.foldl update_product_quantity db.products
      let rcpt : ReceiptRow := ⟨txnId, receiptNumber y m d r2⟩
      ({ db with
          products := products'
          customers := customers'
          transactions := db.transactions ++ [txn]
          transaction_items := db.transaction_items ++ itemRows
          receipts := db.receipts ++ [rcpt] },
       .ok (txn, rcpt))

/-! ## PUT /api/transactions/:id/cancel (02_BACKEND_SERVER.js:644-697) -/

/-- The requesting user (`req.user`). -/
structure User where
  id : Nat
  role : String
  deriving Repr, DecidableEq

/-- Responses of the cancellation handler: `200` with the updated row,
`403 Unauthorized`, or the `500` produced by the catch-all when the handler
throws. -/
inductive CancelResult where
  | ok : TxnRow → CancelResult
  | unauthorized : CancelResult
  | serverError : CancelResult
  deriving Repr, DecidableEq

/-- Handler `PUT /api/transactions/:id/cancel` (02_BACKEND_SERVER.js:644-697).

When the fetch yields no row, `transaction` is `null` and the very next line
(`transaction.cashier_id`) throws a TypeError, which the catch-all converts
to a `500` response — there is no 404 path.  When the row exists, the only
precondition checked is the ownership/role check; the status of the
transaction is never inspected, so an already-cancelled transaction is
processed again.  The stock-return loop (02_BACKEND_SERVER.js:664-673)
issues `.update({quantity_in_stock: supabase.rpc('increment_stock', …)})`
without awaiting the rpc and without any `.eq` row filter: the payload is an
unresolved builder object rather than a number, no `increment_stock`
function exists in the schema, and the result of the update is ignored — no
valid per-product increment is ever applied, so the product rows keep their
current `quantity_in_stock`.  Finally the transaction's status is set to
`cancelled` unconditionally. -/
def cancelSale (db : DB) (id : Nat) (requester : User) : DB × CancelResult :=
  match findTxn db.transactions id with
  | none => (db, .serverError)
  | some t =>
    if t.cashier_id != requester.id && requester.role != "admin" then
      (db, .unauthorized)
    else
      let t' := { t with status := "cancelled" }
      ({ db with transactions := db.transactions.map fun x => if x.id == id then t' else x },
       .ok t')

/-! ## POST /api/auth/register (02_BACKEND_SERVER.js:83-120) -/

/-- The JWT payload signed for the new user:
`jwt.sign({id, email, role}, secret, {expiresIn: '24h'})`. -/
structure Token where
  user_id : Nat
  email : String
  role : String
  expiresInHours : Nat
  deriving Repr, DecidableEq

/-- Responses of the registration handler: `201` with the user and token, or
a `400`. -/
inductive RegisterResult where
  | created : UserRow → Token → RegisterResult
  | badRequest : RegisterResult
  deriving Repr, DecidableEq

/-- JS falsiness of an optional string field of the body: missing or empty. -/
def jsFalsyStr : Option String → Bool
  | none => true
  | some s => s.isEmpty

/-- The `CHECK (role IN ('admin', 'store_manager', 'cashier'))` constraint of
the `users` table (01_DATABASE_SCHEMA.sql:18). -/
def validRole (r : String) : Bool :=
  r == "admin" || r == "store_manager" || r == "cashier"

/-- Handler `POST /api/auth/register` (02_BACKEND_SERVER.js:83-120).  The route
installs no authentication middleware, so the outcome is a function of the
request body alone.  `if (!email || !password || !full_name)` rejects missing
or falsy fields with 400; the insert sends `role: role || 'cashier'`, so a
missing or falsy role becomes `cashier` and any other caller-supplied string
is inserted verbatim.  The insert is subject to the `users` table constraints
(role `CHECK`, `UNIQUE` email, 01_DATABASE_SCHEMA.sql:15-18); a constraint
violation is returned as a 400 with no row created.  On success a JWT for the
new user with `expiresIn: '24h'` is returned with status 201. -/
def register (users : List UserRow) (email password full_name role : Option String)
    (newId : Nat) : List UserRow × RegisterResult :=
  if jsFalsyStr email || jsFalsyStr password || jsFalsyStr full_name then
    (users, .badRequest)
  else
    let e := email.getD ""
    let n := full_name.getD ""
    let r := if jsFalsyStr role then "cashier" else role.getD ""
    if !validRole r || users.any (fun u => u.email == e) then
      (users, .badRequest)
    else
      let u : UserRow := ⟨newId, e, n, r⟩
      (users ++ [u], .created u ⟨newId, e, r, 24⟩)

/-! ## POST /api/reports/daily (02_BACKEND_SERVER.js:704-780) -/

/-- Strict timestamp comparison, as Postgres compares a `TIMESTAMP` column to
a literal. -/
def tsLtB (a b : Timestamp) : Bool :=
  a.day < b.day || (a.day == b.day && a.ms < b.ms)

/-- Non-strict timestamp comparison. -/
def tsLeB (a b : Timestamp) : Bool :=
  a.day < b.day || (a.day == b.day && a.ms ≤ b.ms)

/-- The report query filter (02_BACKEND_SERVER.js:712-715):
`status = 'completed'` and
`created_at >= '<date>T00:00:00' AND created_at < '<date>T23:59:59'` —
the upper bound is 23:59:59 (modelled as millisecond 86399000 of day `d`),
not the end of the day. -/
def reportFilter (d : Nat) (t : TxnRow) : Bool :=
  t.status == "completed" && tsLeB ⟨d, 0⟩ t.created_at && tsLtB t.created_at ⟨d, 86399000⟩

/-- The `transaction_items` of one transaction, as embedded by the report's
select. -/
def itemsOf (db : DB) (tid : Nat) : List ItemRow :=
  db.transaction_items.filter (fun it => it.transaction_id == tid)

/-- The joined `products(name)` of an item row. -/
def productName (ps : List Product) (pid : Nat) : String :=
  match findProduct ps pid with
  | some p => p.name
  | none => ""

/-- One step of the `productMap` accumulation (02_BACKEND_SERVER.js:732-740):
a JS object keyed by product name, keys in first-occurrence order, adding
the item quantity. -/
def bumpQty (m : List (String × Int)) (name : String) (q : Int) : List (String × Int) :=
  if m.any (fun p => p.1 == name) then
    m.map fun p => if p.1 == name then (p.1, p.2 + q) else p
  else m ++ [(name, q)]

/-- Stable insertion of one entry into a list sorted by descending quantity;
an entry goes after all entries with quantity ≥ its own, which is what the
stable JS `sort((a, b) => b[1] - a[1])` produces. -/
def insertDesc (x : String × Int) : List (String × Int) → List (String × Int)
  | [] => [x]
  | y :: ys => if x.2 ≤ y.2 then y :: insertDesc x ys else x :: y :: ys

/-- The stable descending-by-quantity sort of `Object.entries(productMap)`. -/
def sortDesc (l : List (String × Int)) : List (String × Int) :=
  l.foldl (fun acc x => insertDesc x acc) []

/-- The report computation (02_BACKEND_SERVER.js:710-752): filter the
transactions, fold the totals and per-payment-method sums, accumulate the
product map over each transaction's items, sort it descending by quantity and
keep the first 5.  Depends only on the `transactions`, `transaction_items`
and `products` tables. -/
def computeDailyReport (db : DB) (d : Nat) (user : Nat) : ReportRow :=
  let txns := db.transactions.filter (reportFilter d)
  let totalSales := txns.foldl (fun s t => s + t.total_amount) 0
  let totalTransactions := txns.length
  let totalDiscount := txns.foldl (fun s t => s + t.discount_amount) 0
  let totalTax := txns.foldl (fun s t => s + t.tax) 0
  let cash := (txns.filter (fun t => t.payment_method == "cash")).foldl
    (fun s t => s + t.total_amount) 0
  let card := (txns.filter (fun t => t.payment_method == "card")).foldl
    (fun s t => s + t.total_amount) 0
  let check := (txns.filter (fun t => t.payment_method == "check")).foldl
    (fun s t => s + t.total_amount) 0
  let productMap := txns.foldl
    (fun m t => (itemsOf db t.id).foldl
      (fun m it => bumpQty m (productName db.products it.product_id) it.quantity) m)
    []
  let topProducts := (sortDesc productMap).take 5
  { report_date := d
    total_sales := pgRound2 totalSales
    total_transactions := totalTransactions
    total_discount_given := pgRound2 totalDiscount
    total_tax := pgRound2 totalTax
    cash_sales := pgRound2 cash
    card_sales := pgRound2 card
    check_sales := pgRound2 check
    top_products := topProducts
    average_transaction := if totalTransactions > 0 then totalSales / totalTransactions else 0
    generated_by := user }

/-- The `upsert(..., { onConflict: 'report_date' })` of the report handler
(02_BACKEND_SERVER.js:754-772): replace the row with the same date if one
exists, else append. -/
def upsertReport (rs : List ReportRow) (r : ReportRow) : List ReportRow :=
  if rs.any (fun x => x.report_date == r.report_date) then
    rs.map fun x => if x.report_date == r.report_date then r else x
  else rs ++ [r]

/-- Handler `POST /api/reports/daily` (02_BACKEND_SERVER.js:704-780): compute the
report for the date and upsert it keyed by `report_date`. -/
def generateDaily (db : DB) (d : Nat) (user : Nat) : DB × ReportRow :=
  let r := computeDailyReport db d user
  ({ db with daily_reports := upsertReport db.daily_reports r }, r)

/-- Stock on hand of a product in a database state. -/
def stockOf (db : DB) (pid : Nat) : Int :=
  match findProduct db.products pid with
  | some p => p.quantity_in_stock
  | none => 0

/-- Number of `daily_reports` rows carrying a given date. -/
def countDate (rs : List ReportRow) (d : Nat) : Nat :=
  (rs.filter (fun x => x.report_date == d)).length

/-! ## Observation helpers (projections used to state results) -/

/-- Whether the transaction-creation handler answered 201 (and not a 400). -/
def saleOk (r : Except SaleError (TxnRow × ReceiptRow)) : Bool :=
  match r with
  | .ok _ => true
  | .error _ => false

/-- The transaction row of a 201 answer (a placeholder row otherwise). -/
def saleTxn (r : Except SaleError (TxnRow × ReceiptRow)) : TxnRow :=
  match r with
  | .ok (t, _) => t
  | .error _ => ⟨0, "", none, 0, 0, 0, 0, 0, "", "", ⟨0, 0⟩⟩

/-- Whether the cancellation handler answered 200. -/
def cancelOk (r : CancelResult) : Bool :=
  match r with
  | .ok _ => true
  | _ => false

/-- The status field of a 200 cancellation answer (empty otherwise). -/
def cancelStatus (r : CancelResult) : String :=
  match r with
  | .ok t => t.status
  | _ => ""

/-! ## Helper lemmas -/

theorem foldl_add_map {α : Type} (f : α → ℚ) :
    ∀ (l : List α) (a : ℚ), l.foldl (fun s x => s + f x) a = a + (l.map f).sum
  | [], a => by simp
  | x :: xs, a => by
    simp only [List.foldl_cons, List.map_cons, List.sum_cons]
    rw [foldl_add_map f xs (a + f x)]
    ring

theorem subtotalOf_eq (items : List SaleItem) :
    subtotalOf items = (items.map fun it => (it.quantity : ℚ) * it.unit_price).sum := by
  unfold subtotalOf
  rw [foldl_add_map (fun it => (it.quantity : ℚ) * it.unit_price) items 0, zero_add]

theorem firstStockFailure_isSome {ps : List Product} {items : List SaleItem}
    (h : ∃ it ∈ items, findProduct ps it.product_id = none
        ∨ ∃ p, findProduct ps it.product_id = some p ∧ p.quantity_in_stock < it.quantity) :
    ∃ pid, firstStockFailure ps items = some pid := by
  induction items with
  | nil => simp at h
  | cons it rest ih =>
    cases hf : findProduct ps it.product_id with
    | none => exact ⟨it.product_id, by simp [firstStockFailure, hf]⟩
    | some p =>
      by_cases hq : p.quantity_in_stock < it.quantity
      · exact ⟨it.product_id, by simp [firstStockFailure, hf, hq]⟩
      · rcases h with ⟨it', hmem, hcond⟩
        rcases List.mem_cons.mp hmem with heq | hmem'
        · subst heq
          rcases hcond with hnone | ⟨p', hp', hlt⟩
          · rw [hf] at hnone; exact absurd hnone (by simp)
          · rw [hf] at hp'
            obtain rfl : p = p' := by injection hp'
            exact absurd hlt hq
        · obtain ⟨pid, hpid⟩ := ih ⟨it', hmem', hcond⟩
          exact ⟨pid, by simp [firstStockFailure, hf, hq, hpid]⟩

theorem createSale_insufficient {db : DB} {items : List SaleItem}
    (customer_id : Option Nat) (pm : String) (cashier y m d r1 r2 txnId : Nat)
    (now : Timestamp)
    (h : ∃ it ∈ items, findProduct db.products it.product_id = none
        ∨ ∃ p, findProduct db.products it.product_id = some p ∧ p.quantity_in_stock < it.quantity) :
    ∃ pid, createSale db customer_id items pm cashier y m d r1 r2 txnId now
      = (db, .error (.insufficientStock pid)) := by
  obtain ⟨pid, hpid⟩ := firstStockFailure_isSome h
  have hne : items ≠ [] := by
    rintro rfl
    simp [firstStockFailure] at hpid
  refine ⟨pid, ?_⟩
  have hemp : items.isEmpty = false := by
    cases items with
    | nil => exact absurd rfl hne
    | cons a l => rfl
  simp [createSale, hemp, hpid]

/-! ## Claim C1 — totals and rounding of a stored sale -/

/-- C1 example state: the two products of the spec's worked example, ample
stock, and a customer whose stored eligibility flag is set at 5%. -/
def c1db : DB :=
  { products := [⟨1, "Laptop", 1999.99, 10, true⟩, ⟨2, "Mouse", 29.99, 10, true⟩]
    customers := [⟨7, 1200, 3, true, 5⟩]
    transactions := []
    transaction_items := []
    receipts := []
    daily_reports := [] }

/-- C1 example request items: `[{price 1999.99, qty 1}, {price 29.99, qty 2}]`. -/
def c1items : List SaleItem := [⟨1, 1, 1999.99⟩, ⟨2, 2, 29.99⟩]

/-- The C1 example run of the transaction-creation handler. -/
def c1run : DB × Except SaleError (TxnRow × ReceiptRow) :=
  createSale c1db (some 7) c1items "cash" 3 2025 1 15 42 43 100 ⟨20000, 36000000⟩

/-- The transaction row stored by the C1 example run. -/
def c1t : TxnRow := saleTxn c1run.2

/-- C1, counterexample.  On the spec's own worked example the handler applies
no rounding: it sends discount 102.9985, tax 195.69715, total 2152.66865, and
the `DECIMAL(10,2)` storage cast (ties away from zero) stores discount 103.00
— not the claimed 102.99 — and total 2152.67 — not the claimed 2152.68. -/
theorem c1_counterexample :
    saleOk c1run.2 = true
    ∧ c1t.subtotal = 205997 / 100
    ∧ c1t.discount_amount = 103
    ∧ c1t.discount_amount ≠ 10299 / 100
    ∧ c1t.tax = 1957 / 10
    ∧ c1t.total_amount = 215267 / 100
    ∧ c1t.total_amount ≠ 215268 / 100 := by
  refine ⟨rfl, ?_, ?_, ?_, ?_, ?_, ?_⟩ <;>
    · simp [c1t, c1run, createSale, c1db, c1items, saleTxn, firstStockFailure, findProduct,
        findCustomer, subtotalOf, discountFor, List.find?, pgRound2]
      norm_num

/-- The discount as §3 of the spec states it, written from the spec's words
(`discount = eligible ? subtotal × pct/100 : 0`, and 0 when no customer
reference was supplied or no such customer exists): a spec-side definition to
be compared with the embedding's `discountFor`. -/
def specDiscount (db : DB) (customer_id : Option Nat) (sub : ℚ) : ℚ :=
  match customer_id with
  | none => 0
  | some cid =>
    match findCustomer db.customers cid with
    | none => 0
    | some cu =>
      if cu.is_eligible_for_discount then sub * (cu.discount_percentage : ℚ) / 100 else 0

theorem discountFor_eq_specDiscount (db : DB) (customer_id : Option Nat) (s : ℚ) :
    discountFor
      (match customer_id with
       | some cid => findCustomer db.customers cid
       | none => none) s
      = specDiscount db customer_id s := by
  cases customer_id with
  | none => rfl
  | some cid =>
    simp only [specDiscount]
    cases hcu : findCustomer db.customers cid with
    | none => simp [discountFor, hcu]
    | some cu =>
      simp only [discountFor, hcu]
      by_cases hflag : cu.is_eligible_for_discount
      · simp [hflag, mul_div_assoc]
      · simp [hflag]

/-- C1, amended.  For every sale the handler accepts — with or without a
customer, eligible or not — the stored fields are `subtotal = Σ qty·price`,
`discount = specDiscount` (subtotal·pct/100 when a supplied customer's stored
flag is set, else 0), `tax = (subtotal − discount)·0.10` and
`total = subtotal − discount + tax`, computed with no rounding in the handler
and then each rounded once, independently, by the `DECIMAL(10,2)` storage
cast (2 decimals, ties away from zero — not round-half-even); `tax` and
`total` are rounded from the unrounded intermediates, and per-line amounts
are not rounded before summing. -/
theorem c1_amended (db : DB) (customer_id : Option Nat) (items : List SaleItem)
    (pm : String) (cashier y m d r1 r2 txnId : Nat) (now : Timestamp)
    (db' : DB) (t : TxnRow) (rc : ReceiptRow)
    (hrun : createSale db customer_id items pm cashier y m d r1 r2 txnId now
      = (db', .ok (t, rc))) :
    let sub := (items.map fun it => (it.quantity : ℚ) * it.unit_price).sum
    let disc := specDiscount db customer_id sub
    let tax := (sub - disc) * (1 / 10)
    t.subtotal = pgRound2 sub
    ∧ t.discount_amount = pgRound2 disc
    ∧ t.tax = pgRound2 tax
    ∧ t.total_amount = pgRound2 (sub - disc + tax)
    ∧ t.status = "completed" := by
  intro sub disc tax
  simp only [createSale] at hrun
  split at hrun
  · simp at hrun
  · split at hrun
    · simp at hrun
    · simp only [Prod.mk.injEq, Except.ok.injEq] at hrun
      obtain ⟨-, ht, -⟩ := hrun
      refine ⟨?_, ?_, ?_, ?_, ?_⟩ <;> rw [← ht] <;>
        first
          | rfl
          | (simp only [subtotalOf_eq, discountFor_eq_specDiscount]; try rfl)

/-- The receipt row of the C1 example run. -/
def c1rc : ReceiptRow :=
  match c1run.2 with
  | .ok (_, r) => r
  | .error _ => ⟨0, ""⟩

/-- C1 witness: `c1_amended` instantiated at the spec's worked example. -/
theorem c1_amended_witness :
    let sub := (c1items.map fun it => (it.quantity : ℚ) * it.unit_price).sum
    let disc := sub * ((5 : ℕ) : ℚ) / 100
    let tax := (sub - disc) * (1 / 10)
    c1t.subtotal = pgRound2 sub
    ∧ c1t.discount_amount = pgRound2 disc
    ∧ c1t.tax = pgRound2 tax
    ∧ c1t.total_amount = pgRound2 (sub - disc + tax)
    ∧ c1t.status = "completed" :=
  c1_amended c1db (some 7) c1items "cash" 3 2025 1 15 42 43 100
    ⟨20000, 36000000⟩ c1run.1 c1t c1rc rfl

/-! ## Claim C2 — sale and receipt sequence numbers -/

/-- C2 state: one product with ample stock, no customers. -/
def c2db : DB :=
  { products := [⟨1, "Cable", 5, 10, true⟩]
    customers := []
    transactions := []
    transaction_items := []
    receipts := []
    daily_reports := [] }

/-- C2 first call on 2025-01-15, with random draw 42 for the sale number. -/
def c2run1 : DB × Except SaleError (TxnRow × ReceiptRow) :=
  createSale c2db none [⟨1, 1, 5⟩] "cash" 1 2025 1 15 42 17 100 ⟨20100, 1000⟩

/-- C2 second, sequential call on the same date, whose random draw again
floors to 42. -/
def c2run2 : DB × Except SaleError (TxnRow × ReceiptRow) :=
  createSale c2run1.1 none [⟨1, 1, 5⟩] "cash" 1 2025 1 15 42 23 101 ⟨20100, 2000⟩

/-- The transaction rows stored by the two C2 calls. -/
def c2t1 : TxnRow := saleTxn c2run1.2

/-- The transaction row stored by the second C2 call. -/
def c2t2 : TxnRow := saleTxn c2run2.2

/-- C2, evaluation at the failing input.  The number is a function of the date
and the random draw alone: two sequential calls whose draws both floor to 42
store two distinct transactions carrying the identical number
`TXN-20250115-00042` (which would in fact collide on the column's UNIQUE
constraint), and draws 9 then 3 show the sequence can decrease; nothing is
strictly increasing or gap-free. -/
theorem c2_random_not_sequential :
    saleOk c2run1.2 = true
    ∧ saleOk c2run2.2 = true
    ∧ c2t1.transaction_number = "TXN-20250115-00042"
    ∧ c2t2.transaction_number = "TXN-20250115-00042"
    ∧ c2t1.transaction_number = c2t2.transaction_number
    ∧ c2t1.id ≠ c2t2.id
    ∧ transactionNumber 2025 1 15 9 = "TXN-20250115-00009"
    ∧ transactionNumber 2025 1 15 3 = "TXN-20250115-00003"
    ∧ receiptNumber 2025 1 15 42 = "RCP-20250115-00042" :=
  ⟨rfl, rfl, rfl, rfl, rfl, by decide, rfl, rfl, rfl⟩

/-! ## Claim C3 — cancellation does not restore stock -/

/-- C3 state: one product with stock 10. -/
def c3db : DB :=
  { products := [⟨1, "Phone", 5, 10, true⟩]
    customers := []
    transactions := []
    transaction_items := []
    receipts := []
    daily_reports := [] }

/-- C3 sale of 2 units. -/
def c3sale : DB × Except SaleError (TxnRow × ReceiptRow) :=
  createSale c3db none [⟨1, 2, 5⟩] "cash" 1 2025 1 15 7 8 100 ⟨20100, 1000⟩

/-- C3 cancellation of that sale by its own cashier. -/
def c3cancel : DB × CancelResult := cancelSale c3sale.1 100 ⟨1, "cashier"⟩

/-- C3, evaluation at the failing input.  The sale takes stock from 10 to 8;
the cancellation succeeds and flips the status, but its malformed stock-return
update leaves stock at 8 — not the pre-sale 10 the claim requires. -/
theorem c3_cancel_does_not_restore :
    stockOf c3db 1 = 10
    ∧ saleOk c3sale.2 = true
    ∧ stockOf c3sale.1 1 = 8
    ∧ cancelOk c3cancel.2 = true
    ∧ cancelStatus c3cancel.2 = "cancelled"
    ∧ stockOf c3cancel.1 1 = 8 :=
  ⟨rfl, rfl, rfl, rfl, rfl, rfl⟩

/-! ## Claim C4 — insufficient stock rejects the sale with no effects -/

/-- C4.  Whenever some requested item's quantity exceeds its product's current
stock-on-hand, the handler answers the insufficient-stock 400 and returns
before any write: the state is unchanged — no transaction, item or receipt
row and no stock movement. -/
theorem c4_insufficient_stock (db : DB) (customer_id : Option Nat)
    (items : List SaleItem) (pm : String) (cashier y m d r1 r2 txnId : Nat)
    (now : Timestamp)
    (h : ∃ it ∈ items, ∃ p, findProduct db.products it.product_id = some p
        ∧ p.quantity_in_stock < it.quantity) :
    ∃ pid, createSale db customer_id items pm cashier y m d r1 r2 txnId now
      = (db, .error (.insufficientStock pid)) := by
  obtain ⟨it, hmem, hp⟩ := h
  exact createSale_insufficient customer_id pm cashier y m d r1 r2 txnId now
    ⟨it, hmem, .inr hp⟩

/-- C4 witness state: one product with a single unit in stock. -/
def c4db : DB :=
  { products := [⟨1, "SSD", 5, 1, true⟩]
    customers := []
    transactions := []
    transaction_items := []
    receipts := []
    daily_reports := [] }

/-- C4 witness: requesting 2 units of a product holding 1. -/
theorem c4_insufficient_stock_witness :
    ∃ pid, createSale c4db none [⟨1, 2, 5⟩] "card" 1 2025 1 15 3 4 100 ⟨20100, 0⟩
      = (c4db, .error (.insufficientStock pid)) :=
  c4_insufficient_stock c4db none [⟨1, 2, 5⟩] "card" 1 2025 1 15 3 4 100 ⟨20100, 0⟩
    ⟨⟨1, 2, 5⟩, List.mem_singleton.mpr rfl, ⟨1, "SSD", 5, 1, true⟩, rfl, by decide⟩

/-! ## Claim C5 — loyalty eligibility is never switched on -/

/-- C5 customer: purchase_count 9, cumulative spend 500, flag off. -/
def c5cust : Customer := ⟨7, 500, 9, false, 0⟩

/-- The customers table after one accrual of a 50.00 sale for that customer. -/
def c5after : List Customer := update_customer_totals 50 [c5cust] 7

/-- The stored row after the accrual. -/
def c5row : Customer := ⟨7, (500 : ℚ) + 50, 10, false, 0⟩

/-- C5, evaluation at the failing input.  The accrual brings the stored
purchase count to 10, but the eligibility flag and percentage stay 'false'/0:
the eligibility trigger is declared AFTER UPDATE and PostgreSQL discards its
NEW assignments.  Had its body been applied (as the repo's own docs describe),
the flag would be true and the percentage 5; with the stored row as it is, a
subsequent sale computes a discount of 0. -/
theorem c5_eligibility_never_set :
    findCustomer c5after 7 = some c5row
    ∧ c5row.purchase_count = 10
    ∧ c5row.total_purchases = 550
    ∧ c5row.is_eligible_for_discount = false
    ∧ c5row.discount_percentage = 0
    ∧ (check_customer_eligibility c5row).is_eligible_for_discount = true
    ∧ (check_customer_eligibility c5row).discount_percentage = 5
    ∧ discountFor (findCustomer c5after 7) 100 = 0 := by
  have helig : check_customer_eligibility c5row
      = { c5row with is_eligible_for_discount := true, discount_percentage := 5 } := by
    rw [check_customer_eligibility, if_pos (Or.inl (by norm_num [c5row]))]
  refine ⟨rfl, rfl, by norm_num [c5row], rfl, rfl, ?_, ?_, rfl⟩ <;> rw [helig]

/-! ## Claim C6 — cancellation state checks -/

/-- C6 counterexample state: a transaction that is already cancelled. -/
def c6txn : TxnRow :=
  ⟨5, "TXN-20250114-00001", none, 1, 10, 0, 1, 11, "cash", "cancelled", ⟨20099, 500⟩⟩

/-- C6 counterexample database. -/
def c6db : DB := ⟨[], [], [c6txn], [], [], []⟩

/-- C6, counterexample.  Cancelling a sale whose status is already
`cancelled` succeeds with a 200 — the handler never inspects the status, so
there is no AlreadyCancelled failure. -/
theorem c6_counterexample :
    cancelOk (cancelSale c6db 5 ⟨1, "cashier"⟩).2 = true
    ∧ cancelStatus (cancelSale c6db 5 ⟨1, "cashier"⟩).2 = "cancelled" :=
  ⟨rfl, rfl⟩

/-- C6 amended-theorem state: a completed sale of 2 units whose stock was
already decremented to 8 by the sale. -/
def c6txn2 : TxnRow :=
  ⟨6, "TXN-20250114-00002", none, 1, 10, 0, 1, 11, "cash", "completed", ⟨20099, 600⟩⟩

/-- C6 amended-theorem database. -/
def c6db2 : DB :=
  ⟨[⟨1, "Phone", 5, 8, true⟩], [], [c6txn2], [⟨6, 1, 2, 5, 10⟩], [], []⟩

/-- First cancellation of the completed sale. -/
def c6first : DB × CancelResult := cancelSale c6db2 6 ⟨1, "cashier"⟩

/-- Second cancellation of the same, now already-cancelled, sale. -/
def c6second : DB × CancelResult := cancelSale c6first.1 6 ⟨1, "cashier"⟩

/-- C6, amended.  A cancel request for a nonexistent id is answered with the
500 catch-all (the handler dereferences the missing row), not a 404 NotFound;
there is no status check, so a second cancellation of the same sale succeeds
again; and since the stock-return update is malformed and has no effect,
neither cancellation moves any product's stock (it stays at the post-sale
value, 8 here — never restored to 10). -/
theorem c6_amended :
    (∀ (db : DB) (id : Nat) (u : User),
      findTxn db.transactions id = none → cancelSale db id u = (db, .serverError))
    ∧ cancelOk c6first.2 = true
    ∧ cancelOk c6second.2 = true
    ∧ c6second.1.products = c6db2.products
    ∧ c6first.1.products = c6db2.products
    ∧ stockOf c6db2 1 = 8 := by
  refine ⟨?_, rfl, rfl, rfl, rfl, rfl⟩
  intro db id u h
  simp [cancelSale, h]

/-- C6 empty database for the witness. -/
def c6empty : DB := ⟨[], [], [], [], [], []⟩

/-- C6 witness: `c6_amended` applied to a concrete missing id. -/
theorem c6_amended_witness :
    cancelSale c6empty 9 ⟨1, "admin"⟩ = (c6empty, .serverError) :=
  c6_amended.1 c6empty 9 ⟨1, "admin"⟩ rfl

/-! ## Claim C7 — daily report regeneration is an idempotent upsert -/

theorem upsert_any (rs : List ReportRow) (r : ReportRow) :
    (upsertReport rs r).any (fun x => x.report_date == r.report_date) = true := by
  unfold upsertReport
  split
  · rename_i h
    rw [List.any_eq_true] at h ⊢
    obtain ⟨x, hx, hpx⟩ := h
    refine ⟨r, ?_, by simp⟩
    rw [List.mem_map]
    exact ⟨x, hx, by simp [hpx]⟩
  · simp [List.any_append]

theorem upsert_idem (rs : List ReportRow) (r : ReportRow) :
    upsertReport (upsertReport rs r) r = upsertReport rs r := by
  have hany := upsert_any rs r
  conv_lhs => rw [upsertReport]
  rw [if_pos hany]
  unfold upsertReport
  split
  · rw [List.map_map]
    apply List.map_congr_left
    intro x _
    cases hx : (x.report_date == r.report_date) <;> simp [Function.comp, hx]
  · rename_i h
    rw [List.map_append]
    have h1 : ∀ x ∈ rs, (x.report_date == r.report_date) = false := by
      intro x hx
      have := List.any_eq_false.mp (Bool.not_eq_true _ ▸ h)
      simpa using this x hx
    have h2 : rs.map (fun x => if x.report_date == r.report_date then r else x) = rs := by
      have := List.map_congr_left (l := rs)
        (f := fun x => if x.report_date == r.report_date then r else x) (g := id)
        (fun x hx => by simp [h1 x hx])
      rw [this, List.map_id]
    rw [h2]
    simp

theorem countDate_upsert (rs : List ReportRow) (r : ReportRow)
    (h : countDate rs r.report_date ≤ 1) :
    countDate (upsertReport rs r) r.report_date = 1 := by
  unfold countDate at h ⊢
  rw [← List.countP_eq_length_filter] at h ⊢
  unfold upsertReport
  split
  · rename_i hany
    rw [List.countP_map]
    have hfun : ((fun x : ReportRow => x.report_date == r.report_date)
          ∘ fun x => if x.report_date == r.report_date then r else x)
        = fun x : ReportRow => x.report_date == r.report_date := by
      funext x
      cases hx : (x.report_date == r.report_date) <;> simp [Function.comp, hx]
    rw [hfun]
    have hpos : 0 < List.countP (fun x : ReportRow => x.report_date == r.report_date) rs :=
      List.countP_pos_iff.mpr (List.any_eq_true.mp hany)
    omega
  · rename_i hany
    rw [List.countP_append]
    have h0 : List.countP (fun x : ReportRow => x.report_date == r.report_date) rs = 0 := by
      rw [List.countP_eq_zero]
      intro a ha
      have := List.any_eq_false.mp (Bool.not_eq_true _ ▸ hany)
      simpa using this a ha
    simp [h0, List.countP_cons]

/-- C7.  Rerunning the report generation for the same date on the unchanged
database returns the identical report and leaves the state unchanged, and
after a run there is exactly one `daily_reports` row for that date: the
upsert keyed by `report_date` overwrites rather than duplicates. -/
theorem c7_generate_idempotent (db : DB) (d u : Nat)
    (h : countDate db.daily_reports d ≤ 1) :
    (generateDaily (generateDaily db d u).1 d u).2 = (generateDaily db d u).2
    ∧ (generateDaily (generateDaily db d u).1 d u).1 = (generateDaily db d u).1
    ∧ countDate (generateDaily db d u).1.daily_reports d = 1 := by
  have hcomp : computeDailyReport (generateDaily db d u).1 d u = computeDailyReport db d u :=
    rfl
  refine ⟨hcomp, ?_, ?_⟩
  · show ({ db with
        daily_reports :=
          upsertReport (upsertReport db.daily_reports (computeDailyReport db d u))
            (computeDailyReport (generateDaily db d u).1 d u) } : DB)
      = { db with daily_reports := upsertReport db.daily_reports (computeDailyReport db d u) }
    rw [hcomp, upsert_idem]
  · show countDate (upsertReport db.daily_reports (computeDailyReport db d u)) d = 1
    exact countDate_upsert db.daily_reports (computeDailyReport db d u) h

/-- C7 witness state: one completed sale on day 20000, no reports yet. -/
def c7db : DB :=
  ⟨[⟨1, "Phone", 5, 8, true⟩], [],
   [⟨1, "TXN-20250115-00001", none, 1, 10, 0, 1, 11, "cash", "completed", ⟨20000, 50000⟩⟩],
   [⟨1, 1, 2, 5, 10⟩], [], []⟩

/-- C7 witness: `c7_generate_idempotent` at a concrete database. -/
theorem c7_generate_idempotent_witness :
    (generateDaily (generateDaily c7db 20000 9).1 20000 9).2 = (generateDaily c7db 20000 9).2
    ∧ (generateDaily (generateDaily c7db 20000 9).1 20000 9).1 = (generateDaily c7db 20000 9).1
    ∧ countDate (generateDaily c7db 20000 9).1.daily_reports 20000 = 1 :=
  c7_generate_idempotent c7db 20000 9 (by decide)

/-! ## Claim C9 — the report's date window -/

theorem reportFilter_eq (d : Nat) (t : TxnRow) :
    reportFilter d t
      = (t.status == "completed" && t.created_at.day == d
          && decide (t.created_at.ms < 86399000)) := by
  rcases t with ⟨_, _, _, _, _, _, _, _, _, st, ⟨day, ms⟩⟩
  rw [Bool.eq_iff_iff]
  simp only [reportFilter, tsLeB, tsLtB, Bool.and_eq_true, Bool.or_eq_true, beq_iff_eq,
    decide_eq_true_eq]
  constructor
  · rintro ⟨⟨hst, h1⟩, h2⟩
    refine ⟨⟨hst, ?_⟩, ?_⟩ <;> omega
  · rintro ⟨⟨hst, h1⟩, h2⟩
    refine ⟨⟨hst, ?_⟩, ?_⟩ <;> omega

/-- C9 counterexample transaction: completed, timestamped half a second
before midnight of day 20000. -/
def c9txn : TxnRow :=
  ⟨1, "TXN-20250115-00001", none, 1, 10, 0, 1, 11, "cash", "completed", ⟨20000, 86399500⟩⟩

/-- C9 counterexample database. -/
def c9db : DB := ⟨[], [], [c9txn], [], [], []⟩

/-- C9, counterexample.  A completed sale timestamped during the final second
of the day (23:59:59.5) lies on the calendar date, yet the generated report
counts zero transactions: the query's upper bound `< 'dateT23:59:59'`
excludes the last second. -/
theorem c9_counterexample :
    (generateDaily c9db 20000 1).2.total_transactions = 0
    ∧ (c9db.transactions.filter fun t =>
        t.status == "completed" && t.created_at.day == 20000).length = 1 :=
  ⟨rfl, rfl⟩

/-- C9, amended.  The report aggregates exactly the completed sales whose
timestamp lies in `[date 00:00:00, date 23:59:59)`: sales during the final
second of the day are excluded, everything else on the date is included, and
no other date contributes. -/
theorem c9_amended (db : DB) (d u : Nat) :
    db.transactions.filter (reportFilter d)
      = db.transactions.filter (fun t => t.status == "completed"
          && t.created_at.day == d && decide (t.created_at.ms < 86399000))
    ∧ (generateDaily db d u).2.total_transactions
      = (db.transactions.filter (fun t => t.status == "completed"
          && t.created_at.day == d && decide (t.created_at.ms < 86399000))).length := by
  have hfil : db.transactions.filter (reportFilter d)
      = db.transactions.filter (fun t => t.status == "completed"
          && t.created_at.day == d && decide (t.created_at.ms < 86399000)) :=
    List.filter_congr (fun x _ => reportFilter_eq d x)
  refine ⟨hfil, ?_⟩
  show (db.transactions.filter (reportFilter d)).length = _
  rw [hfil]

/-! ## Claim C10 — unauthenticated registration and the role field -/

/-- C10, counterexample.  A request with all three required fields present
and the plausible role string "manager" does not create a user at all: the
`users` role CHECK admits only admin, store_manager and cashier, so the
insert fails and the handler answers 400 — not "a user with exactly the
requested role". -/
theorem c10_counterexample :
    register [] (some "a@b.c") (some "pw") (some "Ann") (some "manager") 1
      = ([], .badRequest) :=
  rfl

/-- C10, amended.  Registration is unauthenticated (the route installs no
middleware; the model is a function of the body alone).  For a request with
non-empty email, password and full_name, an unused email, and a role among
admin, store_manager and cashier, a user is created with exactly that role —
admin included — and a signed 24-hour token for the new user is returned;
when the role is omitted (or falsy) it defaults to cashier; any other role
string fails the users table role CHECK, answering 400 with no user
created. -/
theorem c10_amended :
    (∀ (us : List UserRow) (e p n r : String) (id : Nat),
      validRole r = true → us.any (fun u => u.email == e) = false →
      e.isEmpty = false → p.isEmpty = false → n.isEmpty = false →
      register us (some e) (some p) (some n) (some r) id
        = (us ++ [⟨id, e, n, r⟩], .created ⟨id, e, n, r⟩ ⟨id, e, r, 24⟩))
    ∧ (∀ (us : List UserRow) (e p n : String) (id : Nat),
      us.any (fun u => u.email == e) = false →
      e.isEmpty = false → p.isEmpty = false → n.isEmpty = false →
      register us (some e) (some p) (some n) none id
        = (us ++ [⟨id, e, n, "cashier"⟩],
           .created ⟨id, e, n, "cashier"⟩ ⟨id, e, "cashier", 24⟩))
    ∧ (∀ (us : List UserRow) (e p n r : String) (id : Nat),
      validRole r = false → r.isEmpty = false →
      register us (some e) (some p) (some n) (some r) id = (us, .badRequest)) := by
  refine ⟨?_, ?_, ?_⟩
  · intro us e p n r id hrole hdup he hp hn
    have hre : r.isEmpty = false := by
      cases hr : r.isEmpty
      · rfl
      · exfalso
        have : r = "" := (String.isEmpty_iff r).mp hr
        subst this
        simp [validRole] at hrole
    simp [register, jsFalsyStr, he, hp, hn, hre, hrole, hdup]
  · intro us e p n id hdup he hp hn
    simp [register, jsFalsyStr, he, hp, hn, hdup, validRole]
  · intro us e p n r id hrole hr
    by_cases hfals : jsFalsyStr (some e) || jsFalsyStr (some p) || jsFalsyStr (some n)
    · simp [register, hfals]
    · simp only [register, hfals, Bool.false_eq_true, if_false]
      simp only [jsFalsyStr, hr, Bool.false_eq_true, if_false, Option.getD_some]
      simp [hrole]

/-- C10 witness: `c10_amended` exercised at concrete requests — an
unauthenticated admin self-registration, a defaulted cashier, and a rejected
role string. -/
theorem c10_amended_witness :
    register [] (some "eve@x.io") (some "pw") (some "Eve") (some "admin") 4
      = ([⟨4, "eve@x.io", "Eve", "admin"⟩],
         .created ⟨4, "eve@x.io", "Eve", "admin"⟩ ⟨4, "eve@x.io", "admin", 24⟩)
    ∧ register [] (some "bob@x.io") (some "pw") (some "Bob") none 5
      = ([⟨5, "bob@x.io", "Bob", "cashier"⟩],
         .created ⟨5, "bob@x.io", "Bob", "cashier"⟩ ⟨5, "bob@x.io", "cashier", 24⟩)
    ∧ register [] (some "kim@x.io") (some "pw") (some "Kim") (some "root") 6
      = ([], .badRequest) :=
  ⟨c10_amended.1 [] "eve@x.io" "pw" "Eve" "admin" 4 rfl rfl rfl rfl rfl,
   c10_amended.2.1 [] "bob@x.io" "pw" "Bob" 5 rfl rfl rfl rfl,
   c10_amended.2.2 [] "kim@x.io" "pw" "Kim" "root" 6 rfl rfl⟩

/-! ## Claim C8 — createSale input validation -/

/-- C8 counterexample state: a single inactive product with stock 5. -/
def c8db : DB :=
  { products := [⟨1, "Dock", 10, 5, false⟩]
    customers := []
    transactions := []
    transaction_items := []
    receipts := []
    daily_reports := [] }

/-- C8 counterexample run: an item with quantity 0 referencing the inactive
product. -/
def c8run : DB × Except SaleError (TxnRow × ReceiptRow) :=
  createSale c8db none [⟨1, 0, 10⟩] "cash" 1 2025 1 15 1 2 100 ⟨20000, 0⟩

/-- C8, counterexample.  A request whose only item has quantity 0 and whose
product is inactive is not rejected with InvalidInput: the sale is accepted
and persisted (one transaction row), refuting the claimed quantity-positivity
and active-product validation. -/
theorem c8_counterexample :
    saleOk c8run.2 = true
    ∧ c8run.1.transactions.length = 1
    ∧ stockOf c8run.1 1 = 5 :=
  ⟨rfl, rfl, rfl⟩

/-- C8, amended.  The handler validates only that the item list is non-empty,
answering the InvalidInput 400 with no effects; a nonexistent product id is
reported through the InsufficientStock 400 (also with no effects), and
neither quantity positivity nor product active status is checked — a
quantity-0 item on an inactive product is accepted. -/
theorem c8_amended :
    (∀ (db : DB) (cid : Option Nat) (pm : String) (cashier y m d r1 r2 txnId : Nat)
      (now : Timestamp),
      createSale db cid [] pm cashier y m d r1 r2 txnId now
        = (db, .error .invalidInput))
    ∧ (∀ (db : DB) (cid : Option Nat) (items : List SaleItem) (pm : String)
        (cashier y m d r1 r2 txnId : Nat) (now : Timestamp),
        (∃ it ∈ items, findProduct db.products it.product_id = none) →
        ∃ pid, createSale db cid items pm cashier y m d r1 r2 txnId now
          = (db, .error (.insufficientStock pid)))
    ∧ saleOk c8run.2 = true := by
  refine ⟨?_, ?_, rfl⟩
  · intro db cid pm cashier y m d r1 r2 txnId now
    rfl
  · intro db cid items pm cashier y m d r1 r2 txnId now h
    obtain ⟨it, hmem, hp⟩ := h
    exact createSale_insufficient cid pm cashier y m d r1 r2 txnId now ⟨it, hmem, .inl hp⟩

/-- C8 empty-table database for the witness. -/
def c8db2 : DB := ⟨[], [], [], [], [], []⟩

/-- C8 witness: `c8_amended` at an empty item list and at a nonexistent
product id. -/
theorem c8_amended_witness :
    createSale c8db2 none [] "cash" 1 2025 1 15 1 2 100 ⟨20000, 0⟩
      = (c8db2, .error .invalidInput)
    ∧ ∃ pid, createSale c8db2 none [⟨77, 1, 5⟩] "cash" 1 2025 1 15 1 2 100 ⟨20000, 0⟩
        = (c8db2, .error (.insufficientStock pid)) :=
  ⟨c8_amended.1 c8db2 none "cash" 1 2025 1 15 1 2 100 ⟨20000, 0⟩,
   c8_amended.2.1 c8db2 none [⟨77, 1, 5⟩] "cash" 1 2025 1 15 1 2 100 ⟨20000, 0⟩
     ⟨⟨77, 1, 5⟩, List.mem_singleton.mpr rfl, rfl⟩⟩

end Soko
